import Mathlib

/-!
Verification of the PayBaba-API merchant credit-intelligence backend.

This file gives a shallow embedding, in Lean 4, of the correctness-sensitive
parts of the repository:

* `src/utils/Paylabs.js` — the Paylabs payment-gateway client: canonical
  signing-string construction, request-payload assembly, RSA-SHA256
  sign/verify wrappers, webhook callback verification;
* `src/services/creditScoringService.js` — the credit-scoring engine
  (component scores, weighted composite, risk band);
* `src/services/earlyWarningService.js` — the revenue-drop anomaly detector;
* the Express webhook route in `src/routes/transaction.js` together with the
  middleware stack of `src/app.js`.

Modelling conventions:

* JavaScript numbers are embedded as `ℚ`; the one place the code can produce
  an IEEE infinity (the unguarded refund-rate division) is modelled with the
  explicit extended-number type `JNum`.
* `Math.round` is `⌊x + 1/2⌋`, `Math.floor` is `⌊x⌋` — exact for the values
  these code paths handle.
* The Node `crypto` library (SHA-256 hex digesting and RSA-SHA256
  sign/verify) is an abstract parameter bundle `CryptoModel`; theorems about
  cryptographic behaviour take the signature-scheme contract as an explicit
  hypothesis and are instantiated on a concrete toy scheme in their
  witnesses.
* JavaScript objects are association lists with JS assignment semantics
  (later assignment to an existing key overwrites in place, new keys append;
  `JSON.stringify` serialises in insertion order).
-/

/-! ## JS string and object primitives -/

/-- JS `s.startsWith("/")`: the first character is `'/'`. -/
def jsStartsWithSlash (s : String) : Bool := s.data.head? == some '/'

/-- Decimal digits of a natural number, most significant first.  The first
argument is recursion fuel (any bound ≥ the digit count works); it is
structural so that concrete instances reduce in the kernel. -/
def natToDigitsAux : Nat → Nat → List Char
  | 0, _ => []
  | fuel + 1, n =>
    if n < 10 then [Nat.digitChar n]
    else natToDigitsAux fuel (n / 10) ++ [Nat.digitChar (n % 10)]

/-- JS `String(n)` for a nonnegative integer: its decimal representation. -/
def natToDecimal (n : Nat) : String := ⟨natToDigitsAux (n + 1) n⟩

/-- JS `String(n)` for an integer (JSON number serialisation of an integer). -/
def intToDecimal (i : Int) : String :=
  if i < 0 then "-" ++ natToDecimal i.natAbs else natToDecimal i.toNat

/-- Lowercase hex digit for a value `< 16`. -/
def hexDigitChar (n : Nat) : Char :=
  if n < 10 then Nat.digitChar n
  else if n = 10 then 'a'
  else if n = 11 then 'b'
  else if n = 12 then 'c'
  else if n = 13 then 'd'
  else if n = 14 then 'e'
  else 'f'

/-- A JSON value as the gateway client manipulates it: strings, integer
numbers and objects (insertion-ordered field lists).  This covers every
payload shape the claims under verification touch. -/
inductive JsonVal where
  | str (s : String)
  | num (i : Int)
  | obj (fields : List (String × JsonVal))

/-- JS string-literal escaping as performed by `JSON.stringify`: `"` and `\`
are backslash-escaped, control characters get their short escapes or a
`\u00xx` form, everything else passes through. -/
def jsonEscapeChar (c : Char) : List Char :=
  if c = '"' then ['\\', '"']
  else if c = '\\' then ['\\', '\\']
  else if c.toNat = 8 then ['\\', 'b']
  else if c.toNat = 9 then ['\\', 't']
  else if c.toNat = 10 then ['\\', 'n']
  else if c.toNat = 12 then ['\\', 'f']
  else if c.toNat = 13 then ['\\', 'r']
  else if c.toNat < 32 then
    ['\\', 'u', '0', '0', hexDigitChar (c.toNat / 16), hexDigitChar (c.toNat % 16)]
  else [c]

/-- Escape a whole string for embedding in a JSON document. -/
def jsonEscape (s : String) : String := ⟨s.data.flatMap jsonEscapeChar⟩

mutual

/-- JS `JSON.stringify` (minified: no added whitespace), on `JsonVal`.
Fields are serialised in insertion order, as JS does for non-integer keys. -/
def jsonStringify : JsonVal → String
  | .str s => "\"" ++ jsonEscape s ++ "\""
  | .num i => intToDecimal i
  | .obj fields => "\x7b" ++ jsonStringifyFields fields ++ "\x7d"

/-- Comma-separated `"key":value` serialisation of an object's field list. -/
def jsonStringifyFields : List (String × JsonVal) → String
  | [] => ""
  | [(k, v)] => "\"" ++ jsonEscape k ++ "\":" ++ jsonStringify v
  | (k, v) :: rest =>
      "\"" ++ jsonEscape k ++ "\":" ++ jsonStringify v ++ "," ++ jsonStringifyFields rest

end

/-- JS property read `o[k]` on an object modelled as an insertion-ordered
association list. -/
def jsObjGet : List (String × JsonVal) → String → Option JsonVal
  | [], _ => none
  | p :: rest, k => if p.1 = k then some p.2 else jsObjGet rest k

/-- JS property write `o[k] = v`: overwrite in place if the key exists
(keeping its position, as JS object literals and spreads do), otherwise
append the new key. -/
def jsObjInsert : List (String × JsonVal) → String → JsonVal → List (String × JsonVal)
  | [], k, v => [(k, v)]
  | p :: rest, k, v => if p.1 = k then (k, v) :: rest else p :: jsObjInsert rest k v

/-- JS object spread `{...o, ...fields}`: assign each field of `fields` into
`o` left to right. -/
def jsObjExtend (o : List (String × JsonVal)) (fields : List (String × JsonVal)) :
    List (String × JsonVal) :=
  fields.foldl (fun acc p => jsObjInsert acc p.1 p.2) o

/-- The value the LAST occurrence of key `k` in a literal field list would
contribute (later writes win in JS). -/
def jsLast : List (String × JsonVal) → String → Option JsonVal
  | [], _ => none
  | (k0, v0) :: rest, k =>
    match jsLast rest k with
    | some v => some v
    | none => if k0 = k then some v0 else none

/-! ## UTF-8 bytes and single-bit mutations -/

/-- UTF-8 encoding of one character (RFC 3629), as byte values. -/
def utf8EncodeChar (c : Char) : List Nat :=
  let v := c.toNat
  if v < 0x80 then [v]
  else if v < 0x800 then
    [0xC0 ||| (v >>> 6), 0x80 ||| (v &&& 0x3F)]
  else if v < 0x10000 then
    [0xE0 ||| (v >>> 12), 0x80 ||| ((v >>> 6) &&& 0x3F), 0x80 ||| (v &&& 0x3F)]
  else
    [0xF0 ||| (v >>> 18), 0x80 ||| ((v >>> 12) &&& 0x3F),
     0x80 ||| ((v >>> 6) &&& 0x3F), 0x80 ||| (v &&& 0x3F)]

/-- The UTF-8 byte serialisation of a string — what `Buffer.from(str, "utf8")`
hands to the crypto layer. -/
def strBytes (s : String) : List Nat := s.data.flatMap utf8EncodeChar

/-- Flip bit `i` (little-endian within byte `i / 8`) of a byte list. -/
def flipBitInBytes (bs : List Nat) (i : Nat) : List Nat :=
  bs.set (i / 8) ((bs.getD (i / 8) 0) ^^^ (1 <<< (i % 8)))

/-- `mutated` is `orig` with exactly the `i`-th bit of its UTF-8 byte
serialisation flipped. -/
def BitMutated (orig mutated : String) (i : Nat) : Prop :=
  i < 8 * (strBytes orig).length ∧ strBytes mutated = flipBitInBytes (strBytes orig) i

instance (orig mutated : String) (i : Nat) : Decidable (BitMutated orig mutated i) := by
  unfold BitMutated; infer_instance

/-! ## The Paylabs gateway client (`src/utils/Paylabs.js`) -/

/-- Abstract model of the Node `crypto` primitives the client calls:
`sha256Hex` is `createHash("sha256").update(input, "utf8").digest("hex")`,
`rsaSign key data` is `crypto.sign("RSA-SHA256", data, key)` already
base64-encoded, and `rsaVerify key data sig` is `crypto.verify` on a
base64 signature. -/
structure CryptoModel where
  sha256Hex : String → String
  rsaSign : String → String → String
  rsaVerify : String → String → String → Bool

/-- JS `.toLowerCase()` restricted to ASCII — sufficient and exact for hex
digests, the only strings the client lowercases. -/
def jsToLowerCase (s : String) : String := ⟨s.data.map Char.toLower⟩

/-- `sha256HexLower` from Paylabs.js lines 23–25: hex digest, lowercased. -/
def sha256HexLower (cm : CryptoModel) (input : String) : String :=
  jsToLowerCase (cm.sha256Hex input)

/-- The client state after construction (Paylabs.js lines 37–52).  Keys are
`none` when unset; PEM wrapping of raw keys is not modelled since no claim
depends on the PEM text itself. -/
structure PaylabsClient where
  server : String
  mid : Option String
  version : String
  privateKey : Option String
  publicKey : Option String

/-- Path normalisation done by both signing-string builders:
`path.startsWith("/") ? path : "/" + path`. -/
def jsNormalizePath (path : String) : String :=
  if jsStartsWithSlash path then path else "/" ++ path

/-- `buildSignStringForRequest(bodyObj, path, timestamp)` (Paylabs.js lines
65–77): minify the body with `JSON.stringify`, hash it, normalise the path,
and produce `POST:{path}:{hash}:{timestamp}`. -/
def buildSignStringForRequest (cm : CryptoModel) (bodyObj : JsonVal)
    (path timestamp : String) : String :=
  let jsonString := jsonStringify bodyObj
  let hash := sha256HexLower cm jsonString
  let cleanPath := jsNormalizePath path
  "POST:" ++ cleanPath ++ ":" ++ hash ++ ":" ++ timestamp

/-- `buildSignStringForCallback(path, bodyRaw, timestamp)` (Paylabs.js lines
79–86): same format, but the hash is over the given raw body string. -/
def buildSignStringForCallback (cm : CryptoModel) (path bodyRaw timestamp : String) : String :=
  let hash := sha256HexLower cm bodyRaw
  let cleanPath := jsNormalizePath path
  "POST:" ++ cleanPath ++ ":" ++ hash ++ ":" ++ timestamp

/-- `signBase64(str)` (Paylabs.js lines 88–92): throws when no private key is
configured, otherwise RSA-SHA256-signs the UTF-8 bytes of `str`. -/
def signBase64 (cm : CryptoModel) (c : PaylabsClient) (str : String) :
    Except String String :=
  match c.privateKey with
  | none => .error "Private key belum diset di .env"
  | some key => .ok (cm.rsaSign key str)

/-- `verifyBase64(str, signatureB64)` (Paylabs.js lines 94–98): throws when no
public key is configured, otherwise returns the boolean verdict of
`crypto.verify` — it never throws on a bad signature. -/
def verifyBase64 (cm : CryptoModel) (c : PaylabsClient) (str signatureB64 : String) :
    Except String Bool :=
  match c.publicKey with
  | none => .error "Public key belum diset di .env"
  | some key => .ok (cm.rsaVerify key str signatureB64)

/-- `verifySignature(path, bodyRaw, signatureB64, timestamp)` (Paylabs.js
lines 156–159): rebuild the callback canonical string over the given raw body
and delegate to `verifyBase64`. -/
def verifySignature (cm : CryptoModel) (c : PaylabsClient)
    (path bodyRaw signatureB64 timestamp : String) : Except String Bool :=
  verifyBase64 cm c (buildSignStringForCallback cm path bodyRaw timestamp) signatureB64

/-- The options bag of `request(path, body, opts)`; absent fields are `none`
(JS `undefined`; a falsy empty string behaves like absence in the source and
is likewise modelled as `none`). -/
structure RequestOpts where
  timestamp : Option String
  requestId : Option String
  merchantTradeNo : Option String

/-- Everything `request` has determined at the moment it hands the call to
`fetch`: the signed headers' content and the exact transmitted body. -/
structure OutboundRequest where
  timestamp : String
  signature : String
  requestId : String
  payload : List (String × JsonVal)
  signString : String
  bodyString : String

/-- `request(path, body, opts)` (Paylabs.js lines 101–153) up to the wire:
check the merchant id, resolve timestamp and ids (options override the
generated id), build the payload object literal
`{merchantId, requestId, merchantTradeNo, ...body}`, sign the canonical
string over its minified JSON, and transmit that same JSON.  `now` stands for
`nowJakarta()` and `genId` for the id `genIds()` returned (both of its fields
carry the same generated string). -/
def request (cm : CryptoModel) (c : PaylabsClient) (path : String)
    (body : List (String × JsonVal)) (opts : RequestOpts) (now genId : String) :
    Except String OutboundRequest :=
  match c.mid with
  | none => .error "MID belum diset di .env"
  | some mid =>
    let timestamp := opts.timestamp.getD now
    let requestId := opts.requestId.getD genId
    let merchantTradeNo := opts.merchantTradeNo.getD genId
    let payload := jsObjExtend
      [("merchantId", JsonVal.str mid), ("requestId", JsonVal.str requestId),
       ("merchantTradeNo", JsonVal.str merchantTradeNo)] body
    let signString := buildSignStringForRequest cm (JsonVal.obj payload) path timestamp
    match signBase64 cm c signString with
    | .error e => .error e
    | .ok signature =>
      .ok { timestamp := timestamp, signature := signature, requestId := requestId,
            payload := payload, signString := signString,
            bodyString := jsonStringify (JsonVal.obj payload) }

/-! ## The credit-scoring engine (`src/services/creditScoringService.js`) -/

/-- A JS number as produced by the scoring arithmetic: finite, `+Infinity`
or `-Infinity` (`NaN` is unreachable on these code paths — every division
with a possibly-zero denominator has a positive numerator). -/
inductive JNum where
  | fin (q : ℚ)
  | posInf
  | negInf
deriving DecidableEq

/-- JS division `a / b` for a positive numerator: `+Infinity` when `b = 0`
(IEEE 754), ordinary division otherwise.  The scoring code only divides by a
possibly-zero denominator under a `refundedCount > 0` guard. -/
def jsDivPos (a b : ℕ) : JNum :=
  if b = 0 then .posInf else .fin ((a : ℚ) / (b : ℚ))

/-- JS multiplication of a possibly-infinite number by a positive constant
(the code multiplies by `100` and `20` only). -/
def jsMulPos (x : JNum) (c : ℚ) : JNum :=
  match x with
  | .fin q => .fin (q * c)
  | .posInf => .posInf
  | .negInf => .negInf

/-- `Math.round(x)`, exact on the rationals these paths produce. -/
def jsRound (q : ℚ) : ℤ := ⌊q + 1 / 2⌋

/-- `calculateTransactionVolumeScore` (creditScoringService.js lines 19–22):
`Math.min(100, (count / 100) * 100)`. -/
def calculateTransactionVolumeScore (transactionCount : ℕ) : ℚ :=
  min 100 (((transactionCount : ℚ) / 100) * 100)

/-- `calculateRevenueConsistencyScore` (lines 28–33): `Math.max(0, 100 - volatility)`. -/
def calculateRevenueConsistencyScore (volatility : ℚ) : ℚ :=
  max 0 (100 - volatility)

/-- `calculateGrowthTrendScore` (lines 39–46): `clamp(50 + growthMoM * 2.5, 0, 100)`. -/
def calculateGrowthTrendScore (growthMoM : ℚ) : ℚ :=
  max 0 (min 100 (50 + growthMoM * (5 / 2)))

/-- `calculateRefundRateScore` (lines 52–58): `clamp(100 - refundRate * 20, 0, 100)`,
evaluated over the JS number domain.  The infinite cases follow IEEE
arithmetic: `100 - (+∞)·20 = -∞`, `Math.min(100, -∞) = -∞`,
`Math.max(0, -∞) = 0`, and symmetrically for `-∞`. -/
def calculateRefundRateScore : JNum → ℚ
  | .fin r => max 0 (min 100 (100 - r * 20))
  | .posInf => 0
  | .negInf => 100

/-- `calculateSettlementTimeScore` (lines 64–72): the piecewise settlement
reliability ramp. -/
def calculateSettlementTimeScore (avgSettlementDays : ℚ) : ℚ :=
  if avgSettlementDays ≤ 1 then 100
  else if avgSettlementDays ≤ 3 then max 50 (100 - avgSettlementDays * 15)
  else if avgSettlementDays ≤ 7 then max 0 (50 - (avgSettlementDays - 3) * 10)
  else 0

/-- The fixed composite weights (lines 167–173). -/
def wTransactionVolume : ℚ := 0.25

/-- Weight of the revenue-consistency component. -/
def wRevenueConsistency : ℚ := 0.25

/-- Weight of the growth-trend component. -/
def wGrowthTrend : ℚ := 0.2

/-- Weight of the refund-rate component. -/
def wRefundRate : ℚ := 0.1

/-- Weight of the settlement-time component. -/
def wSettlementTime : ℚ := 0.2

/-- A transaction as the scoring engine reads it: an amount and a status
(`Pending | Success | Failed | Refunded`). -/
inductive TxStatus where
  | pending
  | success
  | failed
  | refunded
deriving DecidableEq

/-- A scoring-window transaction row. -/
structure Tx where
  amount : ℚ
  status : TxStatus

/-- `transactions.filter(t => t.status === "Success").length` (line 106). -/
def successfulCountOf (txs : List Tx) : ℕ :=
  (txs.filter (fun t => t.status == TxStatus.success)).length

/-- `transactions.filter(t => t.status === "Refunded").length` (line 107). -/
def refundedCountOf (txs : List Tx) : ℕ :=
  (txs.filter (fun t => t.status == TxStatus.refunded)).length

/-- The refund rate of line 111:
`refundedCount > 0 ? (refundedCount / successfulCount) * 100 : 0`.
The division is unguarded: with refunds but no successes it is `+∞`. -/
def refundRateOf (refundedCount successfulCount : ℕ) : JNum :=
  if 0 < refundedCount then jsMulPos (jsDivPos refundedCount successfulCount) 100
  else .fin 0

/-- The persisted credit-score snapshot (lines 199–218), restricted to the
fields the claims under verification mention. -/
structure ScoreData where
  creditScore : ℤ
  riskBand : String
  estimatedMinLimit : ℚ
  estimatedMaxLimit : ℚ
  transactionVolumeScore : ℚ
  revenueConsistencyScore : ℚ
  growthTrendScore : ℚ
  refundRateScore : ℚ
  settlementTimeScore : ℚ
  avgMonthlyRevenue : ℚ
  refundRatePercentage : JNum
  transactionCount3m : ℕ

/-- `calculateCreditScore` (creditScoringService.js lines 77–227), as a pure
function of the fetched scoring-window transactions.  The three extra
arguments stand for the metrics the source derives from dates and a square
root — `volatility` (lines 124–132), `growthMoM` (lines 146–157) and
`avgSettlementDays` (lines 134–144) — which no claim under verification
constrains.  With zero transactions in the window the source logs a warning
and returns `null` (lines 97–100), embedded as `none`. -/
def calculateCreditScore (txs : List Tx)
    (volatility growthMoM avgSettlementDays : ℚ) : Option ScoreData :=
  if txs.length = 0 then none
  else
    let totalAmount := (txs.map Tx.amount).sum
    let transactionCount := txs.length
    let refundRate := refundRateOf (refundedCountOf txs) (successfulCountOf txs)
    let transactionVolumeScore := calculateTransactionVolumeScore transactionCount
    let revenueConsistencyScore := calculateRevenueConsistencyScore volatility
    let growthTrendScore := calculateGrowthTrendScore growthMoM
    let refundRateScore := calculateRefundRateScore refundRate
    let settlementTimeScore := calculateSettlementTimeScore avgSettlementDays
    let finalScore := jsRound
      (transactionVolumeScore * wTransactionVolume +
       revenueConsistencyScore * wRevenueConsistency +
       growthTrendScore * wGrowthTrend +
       refundRateScore * wRefundRate +
       settlementTimeScore * wSettlementTime)
    let riskBand := if finalScore ≥ 80 then "Low" else if finalScore ≥ 60 then "Medium" else "High"
    let limitMultiplier : ℚ :=
      if riskBand = "Low" then 3 / 2 else if riskBand = "Medium" then 1 else 1 / 2
    let avgMonthlyRevenue := totalAmount / 3
    some
      { creditScore := finalScore
        riskBand := riskBand
        estimatedMinLimit := avgMonthlyRevenue * limitMultiplier * (4 / 5)
        estimatedMaxLimit := avgMonthlyRevenue * limitMultiplier * (6 / 5)
        transactionVolumeScore := transactionVolumeScore
        revenueConsistencyScore := revenueConsistencyScore
        growthTrendScore := growthTrendScore
        refundRateScore := refundRateScore
        settlementTimeScore := settlementTimeScore
        avgMonthlyRevenue := avgMonthlyRevenue
        refundRatePercentage := refundRate
        transactionCount3m := transactionCount }

/-! ## The revenue-drop detector (`src/services/earlyWarningService.js`) -/

/-- An early-warning alert row, restricted to the fields the claims mention. -/
structure RevAlert where
  alertType : String
  severity : String
  metricValue : ℚ
  thresholdValue : ℚ
deriving DecidableEq

/-- Average of the ten most recent daily-revenue rows
(`dailyRevenues.slice(0, 10)`, rows ordered most recent first). -/
def avgLast10 (revs : List ℚ) : ℚ :=
  ((revs.take 10).sum) / (((revs.take 10).length : ℚ))

/-- Average of the prior twenty daily-revenue rows (`dailyRevenues.slice(10, 30)`). -/
def avgPast20 (revs : List ℚ) : ℚ :=
  (((revs.drop 10).take 20).sum) / ((((revs.drop 10).take 20).length : ℚ))

/-- `((avgPast20 - avgLast10) / avgPast20) * 100` (earlyWarningService.js
line 73).  Rational division by zero yields `0` here; for the nonnegative
revenue data this code runs on, the resulting alert decision agrees with the
JS `NaN`/`-Infinity` comparisons (both sides decline to alert). -/
def revDropPct (revs : List ℚ) : ℚ :=
  ((avgPast20 revs - avgLast10 revs) / avgPast20 revs) * 100

/-- `detectRevenueDropAnomaly` (earlyWarningService.js lines 51–106) as a
pure function of the fetched daily-revenue amounts, most recent first (the
source query orders descending and limits to 30 rows).  Fewer than 10 rows
skip evaluation; a drop above 30% emits an alert whose severity is
`Critical` above 50%, `Medium` above 40%, `Low` otherwise. -/
def detectRevenueDropAnomaly (revs : List ℚ) : Option RevAlert :=
  if revs.length < 10 then none
  else if revDropPct revs > 30 then
    some
      { alertType := "Revenue Drop"
        severity :=
          if revDropPct revs > 50 then "Critical"
          else if revDropPct revs > 40 then "Medium" else "Low"
        metricValue := avgLast10 revs
        thresholdValue := avgPast20 revs * (7 / 10) }
  else none

/-! ## Id generation (`genIds`, Paylabs.js lines 27–34) -/

/-- The fields of a JS `Date` in local time that `genIds` reads
(`getMonth()` is 0-based). -/
structure JsDate where
  year : ℕ
  month : ℕ
  day : ℕ
  hours : ℕ
  minutes : ℕ
  seconds : ℕ

/-- `String(n).padStart(2, "0")`. -/
def pad2 (n : ℕ) : String :=
  let s := natToDecimal n
  if s.length < 2 then "0" ++ s else s

/-- The `YYYYMMDDHHmmss` local-time stamp of `genIds` (line 30). -/
def genIdsTs (d : JsDate) : String :=
  natToDecimal d.year ++ pad2 (d.month + 1) ++ pad2 d.day ++
    pad2 d.hours ++ pad2 d.minutes ++ pad2 d.seconds

/-- `Math.floor(11111 + Math.random() * 88889)` with `r` the random draw in
`[0, 1)` (line 31); the value is nonnegative, so `toNat` is exact. -/
def genIdsRand (r : ℚ) : ℕ := (⌊(11111 : ℚ) + r * 88889⌋).toNat

/-- `genIds()` (lines 27–34): one timestamp-plus-suffix string, returned as
both the request id and the merchant trade number. -/
def genIds (d : JsDate) (r : ℚ) : String × String :=
  let id := genIdsTs d ++ natToDecimal (genIdsRand r)
  (id, id)

/-! ## The webhook route (`src/routes/transaction.js`) and `src/app.js` -/

/-- The body string the webhook handler verifies
(`req.rawBody || JSON.stringify(req.body)`, transaction.js): the raw body
when a middleware captured one (and it is nonempty — JS `||` treats the
empty string as falsy), otherwise a re-serialisation of the parsed body. -/
def webhookBodyString (rawBody : Option String) (parsedBody : JsonVal) : String :=
  match rawBody with
  | some raw => if raw = "" then jsonStringify parsedBody else raw
  | none => jsonStringify parsedBody

/-- The `req.rawBody` the app's middleware stack provides: `src/app.js`
registers only `express.json()` and `express.urlencoded()` with no `verify`
hook (app.js lines 57–61), and no other middleware in the repository writes
`req.rawBody`, so the webhook handler always finds it undefined. -/
def expressJsonRawBody : Option String := none

/-! ## Auxiliary predicates and concrete instances used by the theorems -/

/-- A string with no ASCII uppercase letter — the sense in which a lowercased
hex digest is lowercase. -/
def NoAsciiUpper (s : String) : Prop :=
  ∀ c ∈ s.data, ¬(65 ≤ c.toNat ∧ c.toNat ≤ 90)

/-- Project the success value of an `Except`. -/
def exceptOk {ε α : Type} : Except ε α → Option α
  | .ok a => some a
  | .error _ => none

/-- A concrete toy instantiation of the abstract crypto bundle, used to
witness the scheme-parametric theorems: the "hash" is the identity and the
only accepted signature of a message is the message itself (a correct,
unique-signature scheme). -/
def toyCrypto : CryptoModel where
  sha256Hex := fun s => s
  rsaSign := fun _ m => m
  rsaVerify := fun _ m sig => sig == m

/-- A fully configured client used by witnesses. -/
def toyClient : PaylabsClient where
  server := "SIT"
  mid := some "M001"
  version := "v2.3"
  privateKey := some "PRIVKEY"
  publicKey := some "PUBKEY"

/-- A client with no public key configured, for the misconfiguration case. -/
def toyClientNoPub : PaylabsClient where
  server := "SIT"
  mid := some "M001"
  version := "v2.3"
  privateKey := some "PRIVKEY"
  publicKey := none

/-- Webhook path registered with the gateway. -/
def c5Path : String := "/api/webhook/paylabs"

/-- A callback timestamp header value. -/
def c5Timestamp : String := "2025-01-01T00:00:00.000+07:00"

/-- Raw received webhook body bytes: note the space after the colon. -/
def c5RawBody : String := "\x7b\"status\": \"02\"\x7d"

/-- The same body as Express's `req.body` after JSON parsing. -/
def c5ParsedBody : JsonVal := .obj [("status", .str "02")]

/-- A valid signature (in the toy scheme) over the canonical string of the
raw webhook body. -/
def c5Signature : String :=
  toyCrypto.rsaSign "PRIVKEY" (buildSignStringForCallback toyCrypto c5Path c5RawBody c5Timestamp)

/-- A caller body that collides with an injected identity field. -/
def c2EvilBody : List (String × JsonVal) := [("merchantId", JsonVal.str "HIJACK")]

/-- Empty options bag. -/
def c2NoOpts : RequestOpts := ⟨none, none, none⟩

/-- One successful 300-unit transaction: the scoring window of the C6 witness. -/
def c6SampleTxs : List Tx := [⟨300, TxStatus.success⟩]

/-- The snapshot `calculateCreditScore` produces on `c6SampleTxs` with all
abstracted metrics zero. -/
def c6Sample : ScoreData where
  creditScore := 65
  riskBand := "Medium"
  estimatedMinLimit := 80
  estimatedMaxLimit := 120
  transactionVolumeScore := 1
  revenueConsistencyScore := 100
  growthTrendScore := 50
  refundRateScore := 100
  settlementTimeScore := 100
  avgMonthlyRevenue := 100
  refundRatePercentage := .fin 0
  transactionCount3m := 1

/-- A scoring window consisting of one refunded transaction (refunds without
successes: the unguarded-division case). -/
def c10RefundTxs : List Tx := [⟨10, TxStatus.refunded⟩]

/-- Thirty daily-revenue rows, most recent first: ten days at 600,000 after
twenty days at 1,000,000 — a 40% drop. -/
def c8Revs40 : List ℚ := List.replicate 10 600000 ++ List.replicate 20 1000000

/-- Ten days at 400,000 after twenty days at 1,000,000 — a 60% drop. -/
def c8Revs60 : List ℚ := List.replicate 10 400000 ++ List.replicate 20 1000000

/-- Ten days at 800,000 after twenty days at 1,000,000 — a 20% drop. -/
def c8Revs20 : List ℚ := List.replicate 10 800000 ++ List.replicate 20 1000000

/-- A concrete `Date` reading: 2024-01-15 10:30:45 local time
(`getMonth() = 0`). -/
def c9Date : JsDate := ⟨2024, 0, 15, 10, 30, 45⟩

/-! ## Helper lemmas -/

theorem jsObjGet_insert (o : List (String × JsonVal)) (k : String) (v : JsonVal) (q : String) :
    jsObjGet (jsObjInsert o k v) q = if q = k then some v else jsObjGet o q := by
  induction o with
  | nil =>
    simp only [jsObjInsert, jsObjGet]
    by_cases hq : q = k
    · rw [if_pos (hq ▸ rfl : k = q), if_pos hq]
    · rw [if_neg (fun h => hq h.symm), if_neg hq]
  | cons p rest ih =>
    simp only [jsObjInsert]
    by_cases hp : p.1 = k
    · rw [if_pos hp]
      simp only [jsObjGet]
      by_cases hq : q = k
      · rw [if_pos (hq ▸ rfl : k = q), if_pos hq]
      · rw [if_neg (fun h => hq h.symm), if_neg hq]
        rw [if_neg (fun h : p.1 = q => hq (hp ▸ h : k = q).symm)]
    · rw [if_neg hp]
      simp only [jsObjGet, ih]
      by_cases hpq : p.1 = q
      · rw [if_pos hpq, if_pos hpq, if_neg (fun h : q = k => hp (hpq.trans h))]
      · rw [if_neg hpq, if_neg hpq]

theorem jsObjGet_extend (body o : List (String × JsonVal)) (k : String) :
    jsObjGet (jsObjExtend o body) k =
      match jsLast body k with
      | some v => some v
      | none => jsObjGet o k := by
  induction body generalizing o with
  | nil => simp [jsObjExtend, jsLast]
  | cons p rest ih =>
    have hstep : jsObjExtend o (p :: rest) = jsObjExtend (jsObjInsert o p.1 p.2) rest := by
      simp [jsObjExtend]
    rw [hstep, ih (jsObjInsert o p.1 p.2)]
    simp only [jsLast]
    cases h : jsLast rest k with
    | some v => simp
    | none =>
      simp only []
      rw [jsObjGet_insert]
      by_cases hk : p.1 = k
      · rw [if_pos (hk ▸ rfl : k = p.1), if_pos hk]
      · rw [if_neg (fun h2 : k = p.1 => hk h2.symm), if_neg hk]

theorem natToDigitsAux_length (k : ℕ) :
    ∀ fuel n, 10 ^ k ≤ n → n < 10 ^ (k + 1) → k < fuel →
      (natToDigitsAux fuel n).length = k + 1 := by
  induction k with
  | zero =>
    intro fuel n h1 h2 hf
    match fuel with
    | f + 1 =>
      simp only [natToDigitsAux]
      rw [if_pos (by omega)]
      rfl
  | succ k ih =>
    intro fuel n h1 h2 hf
    match fuel with
    | f + 1 =>
      have h10 : ¬(n < 10) := by
        have : (10 : ℕ) ^ 1 ≤ 10 ^ (k + 1) := Nat.pow_le_pow_right (by omega) (by omega)
        simp at this
        omega
      simp only [natToDigitsAux]
      rw [if_neg h10, List.length_append]
      have hdiv1 : 10 ^ k ≤ n / 10 := by
        rw [Nat.le_div_iff_mul_le (by omega)]
        calc 10 ^ k * 10 = 10 ^ (k + 1) := by ring
        _ ≤ n := h1
      have hdiv2 : n / 10 < 10 ^ (k + 1) := by
        rw [Nat.div_lt_iff_lt_mul (by omega)]
        calc n < 10 ^ (k + 1 + 1) := h2
        _ = 10 ^ (k + 1) * 10 := by ring
      rw [ih f (n / 10) hdiv1 hdiv2 (by omega)]
      simp

theorem xor_shiftLeft_ne (x k : ℕ) : x ^^^ (1 <<< k) ≠ x := by
  intro h
  have ht := congrArg (fun m => Nat.testBit m k) h
  simp [Nat.shiftLeft_eq, Nat.testBit_two_pow_self] at ht

theorem flipBitInBytes_ne (bs : List ℕ) (i : ℕ) (h : i < 8 * bs.length) :
    flipBitInBytes bs i ≠ bs := by
  intro heq
  have hidx : i / 8 < bs.length := by omega
  have h2 : (flipBitInBytes bs i).getD (i / 8) 0 = bs.getD (i / 8) 0 := by rw [heq]
  have h3 : (flipBitInBytes bs i).getD (i / 8) 0 = (bs.getD (i / 8) 0) ^^^ (1 <<< (i % 8)) := by
    unfold flipBitInBytes
    rw [List.getD_eq_getElem _ 0 (by simpa using hidx)]
    simp [List.getElem_set_self]
  exact xor_shiftLeft_ne (bs.getD (i / 8) 0) (i % 8) (h3 ▸ h2)

theorem bitMutated_ne {orig mutated : String} {i : ℕ} (h : BitMutated orig mutated i) :
    mutated ≠ orig := by
  intro heq
  have := h.2
  rw [heq] at this
  exact flipBitInBytes_ne (strBytes orig) i h.1 this.symm

theorem char_toLower_not_upper (c : Char) :
    ¬(65 ≤ (Char.toLower c).toNat ∧ (Char.toLower c).toNat ≤ 90) := by
  unfold Char.toLower
  by_cases h : c.toNat ≥ 65 ∧ c.toNat ≤ 90
  · rw [if_pos h]
    have hv : (c.toNat + 32).isValidChar := by
      left
      have := h.2
      omega
    rw [Char.ofNat, dif_pos hv]
    have hn : (Char.ofNatAux (c.toNat + 32) hv).toNat = c.toNat + 32 := rfl
    rw [hn]
    omega
  · rw [if_neg h]
    omega

theorem jsToLowerCase_noAsciiUpper (s : String) : NoAsciiUpper (jsToLowerCase s) := by
  intro c hc
  simp only [jsToLowerCase] at hc
  obtain ⟨c0, _, rfl⟩ := List.mem_map.mp hc
  exact char_toLower_not_upper c0

theorem jsRound_bounds (x : ℚ) (h0 : 0 ≤ x) (h100 : x ≤ 100) :
    0 ≤ jsRound x ∧ jsRound x ≤ 100 := by
  constructor
  · rw [jsRound]
    rw [Int.le_floor]
    push_cast
    linarith
  · rw [jsRound]
    have : jsRound x < 101 := by
      rw [jsRound, Int.floor_lt]
      push_cast
      linarith
    rw [jsRound] at this
    omega

theorem natToDecimal_length_digits (k n : ℕ) (h1 : 10 ^ k ≤ n) (h2 : n < 10 ^ (k + 1)) :
    (natToDecimal n).length = k + 1 := by
  have hk : k < n + 1 := by
    have : k < 10 ^ k := Nat.lt_pow_self (by omega) k
    omega
  unfold natToDecimal
  show (natToDigitsAux (n + 1) n).length = k + 1
  exact natToDigitsAux_length k (n + 1) n h1 h2 hk

theorem natToDecimal_length_lt10 (n : ℕ) (h : n < 10) : (natToDecimal n).length = 1 := by
  unfold natToDecimal
  show (natToDigitsAux (n + 1) n).length = 1
  simp only [natToDigitsAux]
  rw [if_pos h]
  rfl

theorem pad2_length (n : ℕ) (h : n < 100) : (pad2 n).length = 2 := by
  unfold pad2
  simp only []
  by_cases h10 : n < 10
  · rw [if_pos (by rw [natToDecimal_length_lt10 n h10]; omega)]
    rw [String.length_append, natToDecimal_length_lt10 n h10]
    rfl
  · have hlen : (natToDecimal n).length = 2 := by
      have := natToDecimal_length_digits 1 n (by omega) (by norm_num; omega)
      simpa using this
    rw [if_neg (by omega), hlen]

theorem startsWithSlash_slash_append (p : String) : jsStartsWithSlash ("/" ++ p) = true := by
  simp [jsStartsWithSlash, String.data_append]

/-- C1: the canonical signing string is exactly
`POST:{path}:{lowercase-hex-sha256(body)}:{timestamp}` for both the request
builder (hash of the minified JSON body) and the callback builder (hash of
the raw body); the path gains a leading `/` exactly when it lacks one and is
never double-normalized; the hash field carries no uppercase letter. -/
theorem canonical_string_format (cm : CryptoModel) (bodyObj : JsonVal) (path timestamp : String) :
    buildSignStringForRequest cm bodyObj path timestamp =
      "POST:" ++ jsNormalizePath path ++ ":" ++
        sha256HexLower cm (jsonStringify bodyObj) ++ ":" ++ timestamp
    ∧ (∀ bodyRaw : String,
        buildSignStringForCallback cm path bodyRaw timestamp =
          "POST:" ++ jsNormalizePath path ++ ":" ++ sha256HexLower cm bodyRaw ++ ":" ++ timestamp)
    ∧ (jsStartsWithSlash path = true → jsNormalizePath path = path)
    ∧ (jsStartsWithSlash path = false → jsNormalizePath path = "/" ++ path)
    ∧ jsNormalizePath (jsNormalizePath path) = jsNormalizePath path
    ∧ jsStartsWithSlash (jsNormalizePath path) = true
    ∧ NoAsciiUpper (sha256HexLower cm (jsonStringify bodyObj)) := by
  refine ⟨rfl, fun _ => rfl, ?_, ?_, ?_, ?_, ?_⟩
  · intro h
    simp [jsNormalizePath, h]
  · intro h
    simp [jsNormalizePath, h]
  · cases hb : jsStartsWithSlash path with
    | true => simp [jsNormalizePath, hb]
    | false => simp [jsNormalizePath, hb, startsWithSlash_slash_append]
  · cases hb : jsStartsWithSlash path with
    | true => simp [jsNormalizePath, hb]
    | false => simp [jsNormalizePath, hb, startsWithSlash_slash_append]
  · exact jsToLowerCase_noAsciiUpper _

theorem canonical_string_format_witness :
    buildSignStringForRequest toyCrypto c5ParsedBody "api/pay" "T1" =
      "POST:" ++ jsNormalizePath "api/pay" ++ ":" ++
        sha256HexLower toyCrypto (jsonStringify c5ParsedBody) ++ ":" ++ "T1"
    ∧ jsNormalizePath "api/pay" = "/" ++ "api/pay"
    ∧ jsNormalizePath "/v2/qris" = "/v2/qris" := by
  refine ⟨(canonical_string_format toyCrypto c5ParsedBody "api/pay" "T1").1,
    (canonical_string_format toyCrypto c5ParsedBody "api/pay" "T1").2.2.2.1 (by decide),
    (canonical_string_format toyCrypto c5ParsedBody "/v2/qris" "T1").2.2.1 (by decide)⟩

/-- C3: with both keys configured and the RSA-SHA256 scheme satisfying its
contract (a signature verifies exactly when it is the deterministic signature
of the message, and signing is injective), sign-then-verify round-trips to
`true`, and verification returns `false` — without throwing — for any
single-bit mutation of the signature or of the canonical string. -/
theorem sign_verify_roundtrip_and_mutations
    (cm : CryptoModel) (c : PaylabsClient) (priv pub canonical : String)
    (hpriv : c.privateKey = some priv) (hpub : c.publicKey = some pub)
    (hcorrect : ∀ m sig, cm.rsaVerify pub m sig = true ↔ sig = cm.rsaSign priv m)
    (hinj : Function.Injective (cm.rsaSign priv)) :
    signBase64 cm c canonical = Except.ok (cm.rsaSign priv canonical)
    ∧ verifyBase64 cm c canonical (cm.rsaSign priv canonical) = Except.ok true
    ∧ (∀ sig2 i, BitMutated (cm.rsaSign priv canonical) sig2 i →
        verifyBase64 cm c canonical sig2 = Except.ok false)
    ∧ (∀ canonical2 i, BitMutated canonical canonical2 i →
        verifyBase64 cm c canonical2 (cm.rsaSign priv canonical) = Except.ok false) := by
  refine ⟨by simp [signBase64, hpriv], ?_, ?_, ?_⟩
  · simp [verifyBase64, hpub, (hcorrect canonical (cm.rsaSign priv canonical)).mpr rfl]
  · intro sig2 i hmut
    cases hv : cm.rsaVerify pub canonical sig2 with
    | false => simp [verifyBase64, hpub, hv]
    | true =>
      exact absurd ((hcorrect canonical sig2).mp hv) (bitMutated_ne hmut)
  · intro canonical2 i hmut
    cases hv : cm.rsaVerify pub canonical2 (cm.rsaSign priv canonical) with
    | false => simp [verifyBase64, hpub, hv]
    | true =>
      have h1 := (hcorrect canonical2 (cm.rsaSign priv canonical)).mp hv
      exact absurd (hinj h1) (bitMutated_ne hmut).symm

theorem sign_verify_roundtrip_witness :
    verifyBase64 toyCrypto toyClient "ab" "ab" = Except.ok true
    ∧ verifyBase64 toyCrypto toyClient "ab" "`b" = Except.ok false
    ∧ verifyBase64 toyCrypto toyClient "`b" "ab" = Except.ok false := by
  have h := sign_verify_roundtrip_and_mutations toyCrypto toyClient "PRIVKEY" "PUBKEY" "ab"
    rfl rfl (by intro m sig; simp [toyCrypto, beq_iff_eq]) (fun a b hab => hab)
  exact ⟨h.2.1, h.2.2.1 "`b" 0 (by decide), h.2.2.2 "`b" 0 (by decide)⟩

/-- C4: `verifyBase64` fails with the configuration error exactly when no
public key is configured; with a public key it returns the boolean verdict of
the crypto layer for every canonical string and signature, never throwing on
a bad signature. -/
theorem verify_error_iff_no_public_key (cm : CryptoModel) (c : PaylabsClient) (str sig : String) :
    ((∃ e, verifyBase64 cm c str sig = Except.error e) ↔ c.publicKey = none)
    ∧ (∀ pub, c.publicKey = some pub →
        verifyBase64 cm c str sig = Except.ok (cm.rsaVerify pub str sig)) := by
  constructor
  · constructor
    · rintro ⟨e, he⟩
      cases hc : c.publicKey with
      | none => rfl
      | some pub => simp [verifyBase64, hc] at he
    · intro hc
      exact ⟨"Public key belum diset di .env", by simp [verifyBase64, hc]⟩
  · intro pub hpub
    simp [verifyBase64, hpub]

theorem verify_error_iff_no_public_key_witness :
    (∃ e, verifyBase64 toyCrypto toyClientNoPub "x" "y" = Except.error e)
    ∧ verifyBase64 toyCrypto toyClient "x" "y" = Except.ok false := by
  exact ⟨(verify_error_iff_no_public_key toyCrypto toyClientNoPub "x" "y").1.mpr rfl,
    (verify_error_iff_no_public_key toyCrypto toyClient "x" "y").2 "PUBKEY" rfl⟩

/-- C2 counterexample: a caller-supplied `merchantId` in the body silently
overrides the injected merchant id (`M001`) in the transmitted payload —
the JS spread `{merchantId, requestId, merchantTradeNo, ...body}` lets the
later body fields win. -/
theorem request_identity_override_counterexample :
    (exceptOk (request toyCrypto toyClient "/qris/create" c2EvilBody c2NoOpts "TS0" "GEN0")).map
        (fun r => jsObjGet r.payload "merchantId")
      = some (some (JsonVal.str "HIJACK"))
    ∧ JsonVal.str "HIJACK" ≠ JsonVal.str "M001" := by
  refine ⟨rfl, by simp⟩

/-- C2 amended: the identity fields (merchant id, request id, trade number)
are injected ahead of the caller body as defaults — they reach the payload
exactly when the body does not carry a field of the same name, while a
caller body field with one of those names overrides them (JS spread
semantics); explicit `options.requestId`/`options.merchantTradeNo` do
override the auto-generated id, which is also the id sent in the
`X-REQUEST-ID` header. -/
theorem request_payload_merge_semantics
    (cm : CryptoModel) (c : PaylabsClient) (mid : String) (path : String)
    (body : List (String × JsonVal)) (opts : RequestOpts) (now genId : String)
    (req : OutboundRequest)
    (hmid : c.mid = some mid)
    (hreq : request cm c path body opts now genId = Except.ok req) :
    req.payload = jsObjExtend
      [("merchantId", JsonVal.str mid),
       ("requestId", JsonVal.str (opts.requestId.getD genId)),
       ("merchantTradeNo", JsonVal.str (opts.merchantTradeNo.getD genId))] body
    ∧ jsObjGet req.payload "merchantId"
        = some ((jsLast body "merchantId").getD (JsonVal.str mid))
    ∧ jsObjGet req.payload "requestId"
        = some ((jsLast body "requestId").getD (JsonVal.str (opts.requestId.getD genId)))
    ∧ jsObjGet req.payload "merchantTradeNo"
        = some ((jsLast body "merchantTradeNo").getD
            (JsonVal.str (opts.merchantTradeNo.getD genId)))
    ∧ req.requestId = opts.requestId.getD genId := by
  rw [request, hmid] at hreq
  cases hpk : c.privateKey with
  | none => simp [signBase64, hpk] at hreq
  | some key =>
    simp only [signBase64, hpk, Except.ok.injEq] at hreq
    subst hreq
    refine ⟨rfl, ?_, ?_, ?_, rfl⟩
    · rw [jsObjGet_extend]
      cases jsLast body "merchantId" with
      | some v => rfl
      | none => simp [jsObjGet, Option.getD]
    · rw [jsObjGet_extend]
      cases jsLast body "requestId" with
      | some v => rfl
      | none => simp [jsObjGet, Option.getD]
    · rw [jsObjGet_extend]
      cases jsLast body "merchantTradeNo" with
      | some v => rfl
      | none => simp [jsObjGet, Option.getD]

theorem request_payload_merge_semantics_witness :
    (exceptOk (request toyCrypto toyClient "/x" [] ⟨none, some "RQ9", none⟩ "TS0" "GEN1")).map
        (fun r => (jsObjGet r.payload "merchantId", jsObjGet r.payload "requestId", r.requestId))
      = some (some (JsonVal.str "M001"), some (JsonVal.str "RQ9"), "RQ9") := by
  obtain ⟨req, hreq⟩ :
      ∃ r, request toyCrypto toyClient "/x" [] ⟨none, some "RQ9", none⟩ "TS0" "GEN1"
        = Except.ok r := ⟨_, rfl⟩
  have h := request_payload_merge_semantics toyCrypto toyClient "M001" "/x" []
    ⟨none, some "RQ9", none⟩ "TS0" "GEN1" req rfl hreq
  rw [hreq]
  simp only [exceptOk, Option.map]
  rw [h.2.1, h.2.2.1, h.2.2.2.2]
  simp [jsLast]

/-- C5: the claim is right about the intended behaviour (`verifySignature`
hashes exactly the body string it is given, and a raw-body signature
verifies only against the raw bytes), and the code is wrong at the route:
`src/app.js` registers `express.json()` without a `verify` hook, so
`req.rawBody` is always undefined and the webhook handler's
`req.rawBody || JSON.stringify(req.body)` always verifies a
re-serialisation.  At the failing input — a callback whose raw bytes are
`{"status": "02"}` (with a space) carrying a valid signature over those
bytes — the raw body verifies `true` but the string the route actually
verifies is the minified re-serialisation, which verifies `false`. -/
theorem webhook_raw_body_bug :
    webhookBodyString expressJsonRawBody c5ParsedBody = jsonStringify c5ParsedBody
    ∧ jsonStringify c5ParsedBody ≠ c5RawBody
    ∧ verifySignature toyCrypto toyClient c5Path c5RawBody c5Signature c5Timestamp
        = Except.ok true
    ∧ verifySignature toyCrypto toyClient c5Path
        (webhookBodyString expressJsonRawBody c5ParsedBody) c5Signature c5Timestamp
        = Except.ok false
    ∧ webhookBodyString (some c5RawBody) c5ParsedBody = c5RawBody := by
  refine ⟨rfl, by decide, rfl, rfl, rfl⟩

theorem weighted_clamp_range (v c g r s : ℚ)
    (hv : 0 ≤ v ∧ v ≤ 100) (hc : 0 ≤ c ∧ c ≤ 100) (hg : 0 ≤ g ∧ g ≤ 100)
    (hr : 0 ≤ r ∧ r ≤ 100) (hs : 0 ≤ s ∧ s ≤ 100) :
    0 ≤ jsRound (v * wTransactionVolume + c * wRevenueConsistency + g * wGrowthTrend +
        r * wRefundRate + s * wSettlementTime)
    ∧ jsRound (v * wTransactionVolume + c * wRevenueConsistency + g * wGrowthTrend +
        r * wRefundRate + s * wSettlementTime) ≤ 100 := by
  have hw : wTransactionVolume = 1 / 4 ∧ wRevenueConsistency = 1 / 4 ∧ wGrowthTrend = 1 / 5
      ∧ wRefundRate = 1 / 10 ∧ wSettlementTime = 1 / 5 := by
    norm_num [wTransactionVolume, wRevenueConsistency, wGrowthTrend, wRefundRate, wSettlementTime]
  obtain ⟨h1, h2, h3, h4, h5⟩ := hw
  rw [h1, h2, h3, h4, h5]
  exact jsRound_bounds _ (by linarith [hv.1, hc.1, hg.1, hr.1, hs.1])
    (by linarith [hv.2, hc.2, hg.2, hr.2, hs.2])

/-- C7: with zero transactions in the trailing scoring window the engine
returns the explicit no-result marker (`null`, embedded `none`) — never a
numeric score of 0 and never a fabricated snapshot — and that marker arises
in exactly that case. -/
theorem zero_transactions_insufficient_data
    (volatility growthMoM avgSettlementDays : ℚ) (txs : List Tx) :
    calculateCreditScore [] volatility growthMoM avgSettlementDays = none
    ∧ (calculateCreditScore txs volatility growthMoM avgSettlementDays = none ↔ txs = []) := by
  refine ⟨rfl, ?_, ?_⟩
  · intro h
    cases txs with
    | nil => rfl
    | cons t rest => simp [calculateCreditScore] at h
  · rintro rfl
    rfl

/-- C6: every snapshot the engine produces has composite score
`Math.round(volume*0.25 + consistency*0.25 + growth*0.20 + refund*0.10 +
settlement*0.20)`; the five weights sum to exactly 1; and whenever the five
component scores lie in [0,100] the composite lies in [0,100]. -/
theorem composite_score_weighted_sum
    (txs : List Tx) (volatility growthMoM avgSettlementDays : ℚ) (sd : ScoreData)
    (h : calculateCreditScore txs volatility growthMoM avgSettlementDays = some sd) :
    sd.creditScore = jsRound
      (sd.transactionVolumeScore * wTransactionVolume +
       sd.revenueConsistencyScore * wRevenueConsistency +
       sd.growthTrendScore * wGrowthTrend +
       sd.refundRateScore * wRefundRate +
       sd.settlementTimeScore * wSettlementTime)
    ∧ wTransactionVolume + wRevenueConsistency + wGrowthTrend + wRefundRate +
        wSettlementTime = 1
    ∧ ((0 ≤ sd.transactionVolumeScore ∧ sd.transactionVolumeScore ≤ 100) →
       (0 ≤ sd.revenueConsistencyScore ∧ sd.revenueConsistencyScore ≤ 100) →
       (0 ≤ sd.growthTrendScore ∧ sd.growthTrendScore ≤ 100) →
       (0 ≤ sd.refundRateScore ∧ sd.refundRateScore ≤ 100) →
       (0 ≤ sd.settlementTimeScore ∧ sd.settlementTimeScore ≤ 100) →
       0 ≤ sd.creditScore ∧ sd.creditScore ≤ 100) := by
  cases txs with
  | nil => simp [calculateCreditScore] at h
  | cons t rest =>
    simp only [calculateCreditScore, List.length_cons, Nat.succ_ne_zero, if_false] at h
    simp only [Option.some.injEq] at h
    subst h
    refine ⟨rfl, ?_, ?_⟩
    · norm_num [wTransactionVolume, wRevenueConsistency, wGrowthTrend, wRefundRate,
        wSettlementTime]
    · intro h1 h2 h3 h4 h5
      exact weighted_clamp_range _ _ _ _ _ h1 h2 h3 h4 h5

/-- C10: the refund rate divides the refunded count by the SUCCESSFUL count
(not the total), is 0 by definition whenever the refunded count is 0, and
when refunds exist with zero successes the unguarded division produces the
infinite rate whose clamped component score is still 0; the engine feeds
exactly this value into the snapshot. -/
theorem refund_rate_denominator_and_clamp :
    (∀ s, refundRateOf 0 s = JNum.fin 0)
    ∧ (∀ r s, 0 < r → 0 < s →
        refundRateOf r s = JNum.fin (((r : ℚ) / (s : ℚ)) * 100))
    ∧ (∀ r, 0 < r → refundRateOf r 0 = JNum.posInf
        ∧ calculateRefundRateScore (refundRateOf r 0) = 0)
    ∧ (∀ txs volatility growthMoM avgSettlementDays sd,
        calculateCreditScore txs volatility growthMoM avgSettlementDays = some sd →
          sd.refundRatePercentage = refundRateOf (refundedCountOf txs) (successfulCountOf txs)
          ∧ sd.refundRateScore = calculateRefundRateScore
              (refundRateOf (refundedCountOf txs) (successfulCountOf txs))) := by
  refine ⟨?_, ?_, ?_, ?_⟩
  · intro s
    simp [refundRateOf]
  · intro r s hr hs
    rw [refundRateOf, if_pos hr, jsDivPos, if_neg (by omega)]
    rfl
  · intro r hr
    constructor
    · rw [refundRateOf, if_pos hr, jsDivPos, if_pos rfl]
      rfl
    · rw [refundRateOf, if_pos hr, jsDivPos, if_pos rfl]
      rfl
  · intro txs volatility growthMoM avgSettlementDays sd h
    cases txs with
    | nil => simp [calculateCreditScore] at h
    | cons t rest =>
      simp only [calculateCreditScore, List.length_cons, Nat.succ_ne_zero, if_false] at h
      simp only [Option.some.injEq] at h
      subst h
      exact ⟨rfl, rfl⟩

theorem refund_rate_witness :
    refundRateOf 2 5 = JNum.fin 40
    ∧ refundRateOf 1 0 = JNum.posInf
    ∧ calculateRefundRateScore (refundRateOf 1 0) = 0 := by
  refine ⟨?_, (refund_rate_denominator_and_clamp.2.2.1 1 (by norm_num)).1,
    (refund_rate_denominator_and_clamp.2.2.1 1 (by norm_num)).2⟩
  rw [refund_rate_denominator_and_clamp.2.1 2 5 (by norm_num) (by norm_num)]
  norm_num

theorem c6_sample_eval : calculateCreditScore c6SampleTxs 0 0 0 = some c6Sample := by
  have hrc : refundedCountOf c6SampleTxs = 0 := by decide
  have hlen : c6SampleTxs.length = 1 := by decide
  have hrr : refundRateOf (refundedCountOf c6SampleTxs) (successfulCountOf c6SampleTxs)
      = JNum.fin 0 := by
    rw [hrc]
    simp [refundRateOf]
  have hv : calculateTransactionVolumeScore 1 = 1 := by
    norm_num [calculateTransactionVolumeScore, min_def]
  have hcons : calculateRevenueConsistencyScore 0 = 100 := by
    norm_num [calculateRevenueConsistencyScore, max_def]
  have hgr : calculateGrowthTrendScore 0 = 50 := by
    norm_num [calculateGrowthTrendScore, min_def, max_def]
  have hre : calculateRefundRateScore (JNum.fin 0) = 100 := by
    norm_num [calculateRefundRateScore, min_def, max_def]
  have hse : calculateSettlementTimeScore 0 = 100 := by
    norm_num [calculateSettlementTimeScore]
  have hsum : (c6SampleTxs.map Tx.amount).sum = 300 := by
    simp [c6SampleTxs]
  have hscore : jsRound (1 * wTransactionVolume + 100 * wRevenueConsistency +
      50 * wGrowthTrend + 100 * wRefundRate + 100 * wSettlementTime) = 65 := by
    norm_num [jsRound, wTransactionVolume, wRevenueConsistency, wGrowthTrend, wRefundRate,
      wSettlementTime, Int.floor_eq_iff]
  simp only [calculateCreditScore, hlen, hrr, hsum, hv, hcons, hgr, hre, hse, hscore,
    if_false, Nat.succ_ne_zero]
  norm_num [c6Sample]
  decide

theorem composite_score_weighted_sum_witness :
    calculateCreditScore c6SampleTxs 0 0 0 = some c6Sample
    ∧ c6Sample.creditScore = jsRound
        (c6Sample.transactionVolumeScore * wTransactionVolume +
         c6Sample.revenueConsistencyScore * wRevenueConsistency +
         c6Sample.growthTrendScore * wGrowthTrend +
         c6Sample.refundRateScore * wRefundRate +
         c6Sample.settlementTimeScore * wSettlementTime)
    ∧ 0 ≤ c6Sample.creditScore ∧ c6Sample.creditScore ≤ 100 := by
  have h := composite_score_weighted_sum c6SampleTxs 0 0 0 c6Sample c6_sample_eval
  have hr := h.2.2 (by norm_num [c6Sample]) (by norm_num [c6Sample]) (by norm_num [c6Sample])
    (by norm_num [c6Sample]) (by norm_num [c6Sample])
  exact ⟨c6_sample_eval, h.1, hr.1, hr.2⟩

theorem c8_pct40 : revDropPct c8Revs40 = 40 := by
  simp [revDropPct, avgLast10, avgPast20, c8Revs40, List.sum_replicate]
  norm_num

theorem c8_pct60 : revDropPct c8Revs60 = 60 := by
  simp [revDropPct, avgLast10, avgPast20, c8Revs60, List.sum_replicate]
  norm_num

theorem c8_pct20 : revDropPct c8Revs20 = 20 := by
  simp [revDropPct, avgLast10, avgPast20, c8Revs20, List.sum_replicate]
  norm_num

/-- C8 amended: given the 10 required day-rows, the detector alerts exactly
when the drop percentage of the last-10-day average against the prior-20-day
average exceeds 30, with severity Critical above 50, Medium above 40, Low
otherwise.  A drop of exactly 40% is not above 40, so the concrete scenario
1,000,000 → 600,000 yields severity Low (not Medium); 1,000,000 → 400,000
yields Critical; 1,000,000 → 800,000 yields no alert. -/
theorem revenue_drop_detector_behaviour :
    (∀ revs : List ℚ, 10 ≤ revs.length →
      (((detectRevenueDropAnomaly revs).isSome = true) ↔ revDropPct revs > 30)
      ∧ (revDropPct revs > 30 →
          (detectRevenueDropAnomaly revs).map RevAlert.severity =
            some (if revDropPct revs > 50 then "Critical"
              else if revDropPct revs > 40 then "Medium" else "Low")))
    ∧ (detectRevenueDropAnomaly c8Revs40).map RevAlert.severity = some "Low"
    ∧ (detectRevenueDropAnomaly c8Revs60).map RevAlert.severity = some "Critical"
    ∧ detectRevenueDropAnomaly c8Revs20 = none := by
  have hgen : ∀ revs : List ℚ, 10 ≤ revs.length →
      (((detectRevenueDropAnomaly revs).isSome = true) ↔ revDropPct revs > 30)
      ∧ (revDropPct revs > 30 →
          (detectRevenueDropAnomaly revs).map RevAlert.severity =
            some (if revDropPct revs > 50 then "Critical"
              else if revDropPct revs > 40 then "Medium" else "Low")) := by
    intro revs hlen
    rw [detectRevenueDropAnomaly, if_neg (by omega)]
    by_cases hd : revDropPct revs > 30
    · simp [hd]
    · simp [hd]
  refine ⟨hgen, ?_, ?_, ?_⟩
  · have h := (hgen c8Revs40 (by simp [c8Revs40])).2 (by rw [c8_pct40]; norm_num)
    rw [c8_pct40] at h
    rw [if_neg (by norm_num), if_neg (by norm_num)] at h
    exact h
  · have h := (hgen c8Revs60 (by simp [c8Revs60])).2 (by rw [c8_pct60]; norm_num)
    rw [c8_pct60] at h
    rw [if_pos (by norm_num)] at h
    exact h
  · have h := (hgen c8Revs20 (by simp [c8Revs20])).1
    rw [c8_pct20] at h
    norm_num at h
    cases hv : detectRevenueDropAnomaly c8Revs20 with
    | none => rfl
    | some a => rw [hv] at h; simp at h

/-- C8 counterexample: at the claim's own 40%-drop scenario (historical
average 1,000,000, recent average 600,000) the code emits severity `Low`,
not `Medium` — the strict `> 40` severity test is not met at exactly 40. -/
theorem revenue_drop_forty_percent_not_medium :
    (detectRevenueDropAnomaly c8Revs40).map RevAlert.severity = some "Low"
    ∧ ("Low" : String) ≠ "Medium" := by
  constructor
  · have hgen : 10 ≤ c8Revs40.length := by simp [c8Revs40]
    rw [detectRevenueDropAnomaly, if_neg (by omega), if_pos (by rw [c8_pct40]; norm_num)]
    rw [c8_pct40]
    norm_num
  · decide

theorem revenue_drop_detector_behaviour_witness :
    (detectRevenueDropAnomaly c8Revs60).isSome = true := by
  exact (revenue_drop_detector_behaviour.1 c8Revs60 (by simp [c8Revs60])).1.mpr
    (by rw [c8_pct60]; norm_num)

/-- C9 counterexample: at a concrete clock reading (2024-01-15 10:30:45,
random draw 0) the generated id has 19 digits — a 14-digit `YYYYMMDDHHmmss`
stamp plus a 5-digit suffix — never 17 or 18 as claimed. -/
theorem genIds_nineteen_digits_counterexample :
    ((genIds c9Date 0).1).length = 19
    ∧ ¬(((genIds c9Date 0).1).length = 17 ∨ ((genIds c9Date 0).1).length = 18) := by
  have hrand : genIdsRand 0 = 11111 := by
    unfold genIdsRand
    norm_num
    decide
  have h19 : ((genIds c9Date 0).1).length = 19 := by
    show (genIdsTs c9Date ++ natToDecimal (genIdsRand 0)).length = 19
    rw [hrand]
    decide
  exact ⟨h19, by omega⟩

/-- C9 amended: the default generator produces a 19-digit string — the
14-digit `YYYYMMDDHHmmss` local-time stamp (4-digit year, zero-padded
two-digit fields) concatenated with a 5-digit pseudo-random suffix lying in
[11111, 99999] — and the same generated string is used for both `requestId`
and `merchantTradeNo`. -/
theorem genIds_format (d : JsDate) (r : ℚ)
    (hy1 : 1000 ≤ d.year) (hy2 : d.year < 10000)
    (hm : d.month + 1 < 100) (hd : d.day < 100) (hh : d.hours < 100)
    (hmin : d.minutes < 100) (hs : d.seconds < 100)
    (hr0 : 0 ≤ r) (hr1 : r < 1) :
    11111 ≤ genIdsRand r ∧ genIdsRand r ≤ 99999
    ∧ ((genIds d r).1).length = 19
    ∧ (genIds d r).1 = (genIds d r).2 := by
  have hfloor1 : (11111 : ℤ) ≤ ⌊(11111 : ℚ) + r * 88889⌋ := by
    rw [Int.le_floor]
    push_cast
    nlinarith
  have hfloor2 : ⌊(11111 : ℚ) + r * 88889⌋ < 100000 := by
    rw [Int.floor_lt]
    push_cast
    nlinarith
  have hrand1 : 11111 ≤ genIdsRand r := by
    unfold genIdsRand
    omega
  have hrand2 : genIdsRand r ≤ 99999 := by
    unfold genIdsRand
    omega
  have hlen : ((genIds d r).1).length = 19 := by
    show (genIdsTs d ++ natToDecimal (genIdsRand r)).length = 19
    rw [genIdsTs]
    simp only [String.length_append]
    rw [natToDecimal_length_digits 3 d.year (by norm_num; omega) (by norm_num; omega)]
    rw [pad2_length _ hm, pad2_length _ hd, pad2_length _ hh, pad2_length _ hmin,
      pad2_length _ hs]
    rw [natToDecimal_length_digits 4 (genIdsRand r) (by norm_num; omega) (by norm_num; omega)]
  exact ⟨hrand1, hrand2, hlen, rfl⟩

theorem genIds_format_witness :
    11111 ≤ genIdsRand (1 / 2) ∧ genIdsRand (1 / 2) ≤ 99999
    ∧ ((genIds c9Date (1 / 2)).1).length = 19
    ∧ (genIds c9Date (1 / 2)).1 = (genIds c9Date (1 / 2)).2 := by
  exact genIds_format c9Date (1 / 2) (by decide) (by decide) (by decide) (by decide)
    (by decide) (by decide) (by decide) (by norm_num) (by norm_num)
